import Mathlib

/-!
Shallow embedding of the STM32 example programs of this repository
(`example-blinky/nucleo-f767zi`, `example-blinky` for the STM32F3-Discovery,
`examples/uart/stm32f3-disco`, and the empty `example-uart` template),
together with the HAL-level one-shot singleton and clock-configuration
contracts that the programs rely on.
-/

set_option autoImplicit false

namespace WtEmbedded

/-- Logic level of a GPIO pin. -/
inductive Level where
  | low
  | high
deriving DecidableEq

/-- Flip a logic level (one `toggle` of an output pin). -/
def flipLevel : Level → Level
  | .low => .high
  | .high => .low

/-! ## One-shot peripheral singleton (`pac::Peripherals::take`)

The `take` implementation lives in the device-support crate, outside this
repository; only its callers are in `src/`. -/

/-- Modelled from the spec: process-wide flag recording whether the
peripheral singleton (`pac::Peripherals` / `cortex_m::Peripherals`) has
already been taken.  The spec: "First call in process lifetime returns a
PeripheralSet; every subsequent call fails with `AlreadyTaken`." -/
structure TakeState where
  taken : Bool
deriving DecidableEq

/-- Modelled from the spec: `acquire_peripherals`.  Returns the peripheral
set (`some ()`) exactly when the singleton has not yet been taken, and marks
it consumed for the remainder of the process. -/
def acquire_peripherals (s : TakeState) : Option Unit × TakeState :=
  if s.taken then (none, s) else (some (), ⟨true⟩)

/-- Results of `n` successive acquisition attempts starting from state `s`. -/
def takeResults : Nat → TakeState → List (Option Unit)
  | 0, _ => []
  | n + 1, s =>
    let r := acquire_peripherals s
    r.1 :: takeResults n r.2

/-- Results of `n` successive acquisition attempts over a process lifetime
(initial state: not yet taken). -/
def takeRun (n : Nat) : List (Option Unit) :=
  takeResults n ⟨false⟩

theorem takeResults_taken (n : Nat) :
    takeResults n ⟨true⟩ = List.replicate n none := by
  induction n with
  | zero => rfl
  | succ n ih => simp [takeResults, acquire_peripherals, ih, List.replicate]

/-! ## Clock configuration

`RCC.constrain().cfgr.sysclk(...).freeze(...)` is HAL code outside this
repository; only its call sites are in `src/`. -/

/-- Error taxonomy entry for clock configuration. -/
inductive ClockError where
  | InvalidFrequency
deriving DecidableEq

/-- Immutable value describing the configured system clock frequency (Hz). -/
structure ClockConfig where
  sysclk : Nat
deriving DecidableEq

/-- Modelled from the spec: `configure_clocks`.  The HAL `freeze`
implementation is outside this repository; the spec requires a requested
frequency above the hardware's maximum achievable PLL output to yield
`InvalidFrequency` rather than a silently-clamped value. -/
def configure_clocks (maxPllOutHz requestedHz : Nat) : Except ClockError ClockConfig :=
  if maxPllOutHz < requestedHz then .error .InvalidFrequency
  else .ok ⟨requestedHz⟩

/-! ## Nucleo-F767ZI blinky (`example-blinky/nucleo-f767zi/src/main.rs`)

The main loop is a straight-line sequence of register writes and blocking
delays:
`set_high` on PB0/PB7/PB14, delay `LED_ON_DELAY_MS`, `set_low` on the same
pins, delay `LED_OFF_DELAY_MS`, repeated forever. -/

/-- The three user LEDs of the Nucleo-F767ZI blinky (PB0, PB7, PB14). -/
inductive NucleoPin where
  | ld1
  | ld2
  | ld3
deriving DecidableEq

/-- `const LED_ON_DELAY_MS: u32 = 100;` -/
def LED_ON_DELAY_MS : Nat := 100

/-- `const LED_OFF_DELAY_MS: u32 = 400;` -/
def LED_OFF_DELAY_MS : Nat := 400

/-- One statement of the Nucleo blinky loop body: a level write to a pin
(`set_high` / `set_low`) or a blocking delay (`delay.delay_ms`). -/
inductive NucleoAct where
  | set (p : NucleoPin) (l : Level)
  | delay (ms : Nat)

/-- The Nucleo blinky loop body, statement by statement. -/
def nucleoBody : List NucleoAct :=
  [.set .ld1 .high, .set .ld2 .high, .set .ld3 .high,
   .delay LED_ON_DELAY_MS,
   .set .ld1 .low, .set .ld2 .low, .set .ld3 .low,
   .delay LED_OFF_DELAY_MS]

/-- Interpreter state for the blinky loop: elapsed time since loop entry
and the timestamped pin writes performed so far. -/
structure SchedState where
  time : Nat
  events : List (Nat × NucleoPin × Level)
deriving DecidableEq

/-- Execute one loop-body statement: a pin write records a timestamped
event; a delay advances elapsed time. -/
def execAct (s : SchedState) : NucleoAct → SchedState
  | .set p l => { s with events := s.events ++ [(s.time, p, l)] }
  | .delay n => { s with time := s.time + n }

/-- Execute the whole loop body once. -/
def execBody (s : SchedState) : SchedState :=
  nucleoBody.foldl execAct s

/-- Execute `n` iterations of the blinky loop from loop entry
(time 0, no writes yet). -/
def execIters : Nat → SchedState
  | 0 => ⟨0, []⟩
  | n + 1 => execBody (execIters n)

/-- Fold a list of timestamped pin writes: the value carried is the level
most recently written to pin `p` at or before time `t` (events are in
chronological order). -/
def levelFold (p : NucleoPin) (t : Nat) (acc : Level)
    (evts : List (Nat × NucleoPin × Level)) : Level :=
  evts.foldl (fun a e => if e.2.1 = p ∧ e.1 ≤ t then e.2.2 else a) acc

/-- Observed level of pin `p` at elapsed time `t` after loop entry: the last
level written to `p` at or before `t` by the iterations that have started by
then.  The pins are configured with initial state low. -/
def nucleoLevel (p : NucleoPin) (t : Nat) : Level :=
  levelFold p t .low (execIters (t / 500 + 1)).events

/-- The pin writes emitted by one loop iteration starting at time `t0`. -/
def iterEvts (t0 : Nat) : List (Nat × NucleoPin × Level) :=
  [(t0, .ld1, .high), (t0, .ld2, .high), (t0, .ld3, .high),
   (t0 + 100, .ld1, .low), (t0 + 100, .ld2, .low), (t0 + 100, .ld3, .low)]

theorem execBody_eq (t0 : Nat) (es : List (Nat × NucleoPin × Level)) :
    execBody ⟨t0, es⟩ = ⟨t0 + 500, es ++ iterEvts t0⟩ := by
  simp [execBody, nucleoBody, execAct, iterEvts, LED_ON_DELAY_MS, LED_OFF_DELAY_MS]

/-- All pin writes of the first `n` iterations. -/
def allEvts (n : Nat) : List (Nat × NucleoPin × Level) :=
  ((List.range n).map (fun k => iterEvts (500 * k))).flatten

theorem execIters_eq (n : Nat) : execIters n = ⟨500 * n, allEvts n⟩ := by
  induction n with
  | zero => rfl
  | succ n ih =>
    rw [execIters, ih, execBody_eq]
    simp [allEvts, List.range_succ, Nat.mul_succ]

theorem levelFold_append (p : NucleoPin) (t : Nat) (acc : Level)
    (l1 l2 : List (Nat × NucleoPin × Level)) :
    levelFold p t acc (l1 ++ l2) = levelFold p t (levelFold p t acc l1) l2 := by
  simp [levelFold, List.foldl_append]

theorem levelFold_iterEvts (p : NucleoPin) (t t0 : Nat) (acc : Level) :
    levelFold p t acc (iterEvts t0) =
      if t0 + 100 ≤ t then .low else if t0 ≤ t then .high else acc := by
  cases p <;> simp [levelFold, iterEvts]

theorem levelFold_allEvts (p : NucleoPin) (t : Nat) (acc : Level) (n : Nat)
    (h : t < 500 * n) :
    levelFold p t acc (allEvts n) =
      if t % 500 < 100 then .high else .low := by
  induction n generalizing acc with
  | zero => omega
  | succ n ih =>
    have hsplit : allEvts (n + 1) = allEvts n ++ iterEvts (500 * n) := by
      simp [allEvts, List.range_succ]
    rw [hsplit, levelFold_append, levelFold_iterEvts]
    by_cases hn : t < 500 * n
    · have h1 : ¬ 500 * n + 100 ≤ t := by omega
      have h2 : ¬ 500 * n ≤ t := by omega
      rw [if_neg h1, if_neg h2]
      exact ih acc hn
    · have hle : 500 * n ≤ t := by omega
      have hmod : t % 500 = t - 500 * n := by omega
      by_cases hm : t % 500 < 100
      · have h1 : ¬ 500 * n + 100 ≤ t := by omega
        rw [if_neg h1, if_pos hle, if_pos hm]
      · have h1 : 500 * n + 100 ≤ t := by omega
        rw [if_pos h1, if_neg hm]

/-! ## STM32F3-Discovery UART example (`examples/uart/stm32f3-disco/src/main.rs`)

The loop body is `uart4.write_str("Hello, World!\r\n")`, halting in a spin
loop on error, followed by `delay.delay_ms(UART_WRITE_DELAY_MS)`.  Startup
takes the two peripheral singletons (spinning forever if either fails)
before the loop is reached. -/

/-- `const UART_WRITE_DELAY_MS: u16 = 2_000;` -/
def UART_WRITE_DELAY_MS : Nat := 2000

/-- The fixed payload written each iteration, as its byte sequence. -/
def msgBytes : List Nat := "Hello, World!\r\n".data.map Char.toNat

/-- UART configuration: `config::Config::default().baudrate(115_200.Bd())`. -/
structure UartConfig where
  baud : Nat
deriving DecidableEq

/-- The configuration passed to `Serial::new` for UART4. -/
def uart4Config : UartConfig := ⟨115200⟩

/-- Control location of the UART program. -/
inductive UMode where
  /-- Spinning forever because a peripheral `take()` returned `None`. -/
  | takeSpin
  /-- Executing the main loop. -/
  | run
  /-- Spinning forever because `write_str` returned an error. -/
  | txSpin
deriving DecidableEq

/-- State of the UART program: control location, the byte chunks emitted by
the successful writes so far (in order), and elapsed delay time. -/
structure UPState where
  mode : UMode
  out : List (List Nat)
  time : Nat
deriving DecidableEq

/-- State on reaching the loop (or the startup spin): `pac::Peripherals::take`
and `cortex_m::Peripherals::take` must both succeed, in that order, before
any write happens. -/
def upInit (pacAvail coreAvail : Bool) : UPState :=
  if pacAvail && coreAvail then ⟨.run, [], 0⟩ else ⟨.takeSpin, [], 0⟩

/-- One pass of control: in the loop, a failing `write_str` enters the
transmit spin loop (the failed write emits nothing and is not retried); a
successful one emits the payload and then blocks for the write delay.  In
either spin loop, `asm::nop()` repeats forever and nothing is emitted. -/
def uPStep (fail : Bool) (s : UPState) : UPState :=
  match s.mode with
  | .takeSpin => s
  | .txSpin => s
  | .run =>
    if fail then ⟨.txSpin, s.out, s.time⟩
    else ⟨.run, s.out ++ [msgBytes], s.time + UART_WRITE_DELAY_MS⟩

/-- Run the UART program for `n` control passes, where `f k` tells whether
the `k`-th `write_str` attempt fails. -/
def uPRun (pacAvail coreAvail : Bool) (f : Nat → Bool) : Nat → UPState
  | 0 => upInit pacAvail coreAvail
  | n + 1 => uPStep (f n) (uPRun pacAvail coreAvail f n)

theorem uPStep_not_run {s : UPState} (h : s.mode ≠ .run) (b : Bool) :
    uPStep b s = s := by
  cases s with
  | mk m out time => cases m <;> simp_all [uPStep]

theorem uPRun_frozen (pacAvail coreAvail : Bool) (f : Nat → Bool) (n : Nat)
    (h : (uPRun pacAvail coreAvail f n).mode ≠ .run) :
    ∀ m, n ≤ m → uPRun pacAvail coreAvail f m = uPRun pacAvail coreAvail f n := by
  intro m hm
  induction m with
  | zero =>
    have : n = 0 := by omega
    simp [this]
  | succ m ih =>
    by_cases hnm : n = m + 1
    · simp [hnm]
    · have hle : n ≤ m := by omega
      rw [uPRun, ih hle, uPStep_not_run h]

theorem uPRun_ok (f : Nat → Bool) (n : Nat)
    (h : ∀ k, k < n → f k = false) :
    uPRun true true f n =
      ⟨.run, List.replicate n msgBytes, UART_WRITE_DELAY_MS * n⟩ := by
  induction n with
  | zero => simp [uPRun, upInit]
  | succ n ih =>
    have hn : f n = false := h n (by omega)
    have ihh := ih (fun k hk => h k (by omega))
    rw [uPRun, ihh]
    simp [uPStep, hn, Nat.mul_succ]
    rw [List.replicate_succ' n msgBytes]

/-! ## STM32F3-Discovery eight-LED blinky (`example-blinky/src/main.rs`)

The loop body toggles the eight user LEDs `ld3 .. ld10` in order, each via
`leds.ldN.toggle().ok()` — the `Result` is discarded — and then blocks for
`LED_TOGGLE_DELAY_MS`. -/

/-- The eight user LEDs of the STM32F3-Discovery (PE8..PE15). -/
inductive DiscoLed where
  | ld3
  | ld4
  | ld5
  | ld6
  | ld7
  | ld8
  | ld9
  | ld10
deriving DecidableEq

/-- `const LED_TOGGLE_DELAY_MS: u16 = 500;` -/
def LED_TOGGLE_DELAY_MS : Nat := 500

/-- `switch_hal` `toggle()`: returns a `Result`; on failure the pin level is
unchanged, on success it is flipped. -/
def ledToggle (fail : Bool) (lv : Level) : Except Unit Level :=
  if fail then .error () else .ok (flipLevel lv)

/-- `toggle().ok()`: the `Result` is converted to an `Option` and discarded,
so an error leaves the level unchanged and execution continues. -/
def toggleOk (fail : Bool) (lv : Level) : Level :=
  match ledToggle fail lv with
  | .ok l => l
  | .error _ => lv

/-- State of the eight-LED blinky loop: the LED levels, elapsed delay time,
and the number of completed iterations. -/
structure DiscoState where
  levels : DiscoLed → Level
  time : Nat
  iters : Nat

/-- One iteration of the loop body: every LED receives one toggle attempt
(whether or not earlier toggles in the body failed), then the delay runs. -/
def discoIter (fk : DiscoLed → Bool) (s : DiscoState) : DiscoState :=
  ⟨fun l => toggleOk (fk l) (s.levels l),
   s.time + LED_TOGGLE_DELAY_MS, s.iters + 1⟩

/-- Run `n` iterations of the eight-LED blinky loop, where `f k l` tells
whether the toggle of LED `l` in iteration `k` fails.  The LEDs start off. -/
def discoRun (f : Nat → DiscoLed → Bool) : Nat → DiscoState
  | 0 => ⟨fun _ => .low, 0, 0⟩
  | n + 1 => discoIter (f n) (discoRun f n)

/-- Number of successful toggles of LED `l` in the first `n` iterations. -/
def successCount (f : Nat → DiscoLed → Bool) (n : Nat) (l : DiscoLed) : Nat :=
  ((List.range n).filter (fun k => !(f k l))).length

/-- Level of an initially-low pin after `c` successful toggles. -/
def levelOfParity (c : Nat) : Level :=
  if c % 2 = 0 then .low else .high

theorem flipLevel_levelOfParity (c : Nat) :
    flipLevel (levelOfParity c) = levelOfParity (c + 1) := by
  rcases Nat.mod_two_eq_zero_or_one c with h | h <;>
    simp [levelOfParity, flipLevel, h, Nat.add_mod]

theorem successCount_succ (f : Nat → DiscoLed → Bool) (n : Nat) (l : DiscoLed) :
    successCount f (n + 1) l =
      successCount f n l + (if f n l then 0 else 1) := by
  by_cases h : f n l <;> simp [successCount, List.range_succ, h]

/-! ## Nucleo blinky with startup (take-failure spin) -/

/-- Control location of a blinky program. -/
inductive NMode where
  /-- Spinning forever because a peripheral `take()` returned `None`. -/
  | takeSpin
  /-- Executing the main loop. -/
  | run
deriving DecidableEq

/-- State of the Nucleo blinky program: control location and the schedule
interpreter state. -/
structure NPState where
  mode : NMode
  sched : SchedState
deriving DecidableEq

/-- State on reaching the loop (or the startup spin): both singleton takes
must succeed before any pin of the loop is written. -/
def npInit (pacAvail coreAvail : Bool) : NPState :=
  if pacAvail && coreAvail then ⟨.run, ⟨0, []⟩⟩ else ⟨.takeSpin, ⟨0, []⟩⟩

/-- One control pass: in the loop, run one loop-body iteration; in the spin
loop, `asm::nop()` forever — no pin is written. -/
def npStep (s : NPState) : NPState :=
  match s.mode with
  | .takeSpin => s
  | .run => ⟨.run, execBody s.sched⟩

/-- Run the Nucleo blinky program for `n` control passes. -/
def npRun (pacAvail coreAvail : Bool) : Nat → NPState
  | 0 => npInit pacAvail coreAvail
  | n + 1 => npStep (npRun pacAvail coreAvail n)

theorem npStep_not_run {s : NPState} (h : s.mode ≠ .run) : npStep s = s := by
  cases s with
  | mk m sched => cases m <;> simp_all [npStep]

theorem npRun_frozen (pacAvail coreAvail : Bool) (n : Nat)
    (h : (npRun pacAvail coreAvail n).mode ≠ .run) :
    ∀ m, n ≤ m → npRun pacAvail coreAvail m = npRun pacAvail coreAvail n := by
  intro m hm
  induction m with
  | zero =>
    have : n = 0 := by omega
    simp [this]
  | succ m ih =>
    by_cases hnm : n = m + 1
    · simp [hnm]
    · have hle : n ≤ m := by omega
      rw [npRun, ih hle, npStep_not_run h]

/-! ## GPIO pin configuration and runtime pin operations

`into_push_pull_output` / `into_af_push_pull` are HAL code outside this
repository; only their call sites are in `src/`.  The operations the
programs apply to a configured pin afterwards are `set_high`, `set_low`
and `toggle`, none of which touches the mode registers. -/

/-- The pin modes requested by these programs. -/
inductive PinMode where
  | pushPullOutput
  | altFnPushPull
deriving DecidableEq

/-- Exclusive handle to one configured GPIO pin: its mode and its level. -/
structure PinHandle where
  mode : PinMode
  level : Level
deriving DecidableEq

/-- Modelled from the spec: `into_push_pull_output()`.  Consumes the
unconfigured pin and yields a handle in push-pull output mode; the source
documents the initial state as low. -/
def into_push_pull_output : PinHandle := ⟨.pushPullOutput, .low⟩

/-- Modelled from the spec: `into_af_push_pull(...)`.  Consumes the
unconfigured pin and yields a handle in alternate-function push-pull mode. -/
def into_af_push_pull : PinHandle := ⟨.altFnPushPull, .low⟩

/-- The operations the example programs apply to a configured pin. -/
inductive PinOp where
  | set_high
  | set_low
  | toggle

/-- Apply one runtime operation to a configured pin: only the level
changes, never the mode. -/
def applyPinOp (h : PinHandle) : PinOp → PinHandle
  | .set_high => ⟨h.mode, .high⟩
  | .set_low => ⟨h.mode, .low⟩
  | .toggle => ⟨h.mode, flipLevel h.level⟩

/-- Apply a sequence of runtime operations to a configured pin. -/
def applyPinOps (h : PinHandle) (ops : List PinOp) : PinHandle :=
  ops.foldl applyPinOp h

theorem applyPinOps_mode (h : PinHandle) (ops : List PinOp) :
    (applyPinOps h ops).mode = h.mode := by
  induction ops generalizing h with
  | nil => rfl
  | cons op ops ih =>
    show (applyPinOps (applyPinOp h op) ops).mode = h.mode
    rw [ih]
    cases op <;> rfl

/-! ## The example programs of the repository -/

/-- The four example programs under `src/`. -/
inductive ExampleProgram where
  /-- `example-blinky/nucleo-f767zi/src/main.rs` -/
  | blinkyNucleo
  /-- `example-blinky/src/main.rs` (STM32F3-Discovery, eight LEDs) -/
  | blinkyDisco
  /-- `examples/uart/stm32f3-disco/src/main.rs` -/
  | uartDisco
  /-- `example-uart/src/main.rs` (empty template: `asm::nop()` and an
  empty loop, no peripheral initialization) -/
  | uartTemplate
deriving DecidableEq

/-- Whether the program's `main` initializes clocks, GPIO, or a UART
peripheral through the HAL (read off each source file). -/
def initializesPeripherals : ExampleProgram → Bool
  | .blinkyNucleo => true
  | .blinkyDisco => true
  | .uartDisco => true
  | .uartTemplate => false

/-- What the program's infinite loop does. -/
inductive LoopBehavior where
  | togglesLeds
  | writesFixedString
  | emptyLoop
deriving DecidableEq

/-- The loop behavior of each program (read off each source file). -/
def loopBehavior : ExampleProgram → LoopBehavior
  | .blinkyNucleo => .togglesLeds
  | .blinkyDisco => .togglesLeds
  | .uartDisco => .writesFixedString
  | .uartTemplate => .emptyLoop

/-- The startup statements of a program that matter for singleton
acquisition: the two `take()` calls and the configuration work between and
after them. -/
inductive StartupStep where
  | takePac
  | takeCore
  | configStep
deriving DecidableEq

/-- Startup sequence of each program before its main loop, read off the
source: `pac::Peripherals::take()`, then RCC/clock configuration, then
`cortex_m::Peripherals::take()`, then delay/GPIO/UART configuration.  The
template performs no startup work. -/
def startupSteps : ExampleProgram → List StartupStep
  | .blinkyNucleo => [.takePac, .configStep, .takeCore, .configStep]
  | .blinkyDisco => [.takePac, .configStep, .takeCore, .configStep]
  | .uartDisco => [.takePac, .configStep, .takeCore, .configStep]
  | .uartTemplate => []

/-- Outcome of running the startup sequence. -/
inductive BootOutcome where
  /-- Startup completed; control reached the main loop. -/
  | reachedLoop
  /-- A `take()` returned `None`; control entered the permanent spin loop
  and the main loop was never reached. -/
  | spunOnTake
deriving DecidableEq

/-- Run a startup sequence given whether each singleton is still available:
a failed `take()` diverts into the spin loop and the remaining startup
statements and the main loop never execute. -/
def runStartup (pacAvail coreAvail : Bool) : List StartupStep → BootOutcome
  | [] => .reachedLoop
  | .takePac :: rest =>
    if pacAvail then runStartup pacAvail coreAvail rest else .spunOnTake
  | .takeCore :: rest =>
    if coreAvail then runStartup pacAvail coreAvail rest else .spunOnTake
  | .configStep :: rest => runStartup pacAvail coreAvail rest

/-- Maximum sysclk of the STM32F767 (Nucleo-F767ZI), Hz. -/
def nucleoMaxSysclkHz : Nat := 216000000

/-- Maximum sysclk of the STM32F303 (STM32F3-Discovery), Hz. -/
def discoMaxSysclkHz : Nat := 72000000

/-- The sysclk requested by both the Nucleo blinky and the UART example:
`sysclk(48.MHz())`. -/
def requestedSysclkHz : Nat := 48000000

/-! ## Claim theorems -/

/-- C1: the first acquisition of the device peripheral singleton in a
process succeeds and returns the peripheral set; every subsequent attempt
in the same process fails (`none`), so at most one live `PeripheralSet`
exists for the whole process lifetime (exactly one success in any run of
`n + 1` attempts). -/
theorem claim_C1_singleton_acquisition (n : Nat) :
    takeRun (n + 1) = some () :: List.replicate n none ∧
    (takeRun (n + 1)).count (some ()) = 1 := by
  have h1 : takeRun (n + 1) = some () :: List.replicate n none := by
    simp [takeRun, takeResults, acquire_peripherals, takeResults_taken]
  refine ⟨h1, ?_⟩
  rw [h1]
  simp [List.count_cons, List.count_replicate]

/-- C2: in the Nucleo-F767ZI blinky, executing the cyclic schedule
`[(High,100),(Low,400)]`, every configured LED pin is High at elapsed time
`t` after loop entry exactly when `t mod 500` lies in `[0,100)`, and Low
when it lies in `[100,500)`. -/
theorem claim_C2_blinky_schedule (p : NucleoPin) (t : Nat) :
    nucleoLevel p t = if t % 500 < 100 then .high else .low := by
  rw [nucleoLevel, execIters_eq]
  exact levelFold_allEvts p t .low (t / 500 + 1) (by omega)

/-- C3: in the STM32F3-Discovery UART program (UART4 configured at 115200
baud), every successful iteration transmits exactly the bytes of
`"Hello, World!\r\n"` followed by a 2000 ms delay: after `n` failure-free
iterations the output is `n` chunks, each exactly the payload, never a
partial or interleaved write, and total delay time `2000 * n`. -/
theorem claim_C3_uart_fixed_payload (f : Nat → Bool) (n : Nat)
    (h : ∀ k, k < n → f k = false) :
    uart4Config.baud = 115200 ∧
    (uPRun true true f n).out = List.replicate n msgBytes ∧
    (∀ c ∈ (uPRun true true f n).out, c = msgBytes) ∧
    (uPRun true true f n).time = UART_WRITE_DELAY_MS * n := by
  have hrun := uPRun_ok f n h
  refine ⟨rfl, by rw [hrun], ?_, by rw [hrun]⟩
  rw [hrun]
  intro c hc
  exact List.eq_of_mem_replicate hc

theorem claim_C3_uart_fixed_payload_witness :
    (∀ k, k < 2 → (fun _ => false : Nat → Bool) k = false) ∧
    (uPRun true true (fun _ => false) 2).out = List.replicate 2 msgBytes :=
  ⟨by decide, (claim_C3_uart_fixed_payload (fun _ => false) 2 (by decide)).2.1⟩

/-- C4: every serial write may fail; on the first failing write (attempt
`k`, after `k` failure-free writes) the UART program halts permanently in
the transmit spin loop: for every later step the mode is the spin state and
the output still holds only the `k` earlier chunks — the failed write is
never retried and nothing is recovered. -/
theorem claim_C4_tx_error_fatal (f : Nat → Bool) (k : Nat)
    (hk : f k = true) (hpre : ∀ j, j < k → f j = false) :
    ∀ m, k < m →
      (uPRun true true f m).mode = .txSpin ∧
      (uPRun true true f m).out = List.replicate k msgBytes := by
  have hk1 : uPRun true true f (k + 1) =
      ⟨.txSpin, List.replicate k msgBytes, UART_WRITE_DELAY_MS * k⟩ := by
    show uPStep (f k) (uPRun true true f k) = _
    rw [uPRun_ok f k hpre]
    simp [uPStep, hk]
  intro m hm
  have hfrozen :=
    uPRun_frozen true true f (k + 1) (by rw [hk1]; simp) m (by omega)
  rw [hfrozen, hk1]
  exact ⟨rfl, rfl⟩

theorem claim_C4_tx_error_fatal_witness :
    (uPRun true true (fun i => decide (0 < i)) 3).mode = .txSpin ∧
    (uPRun true true (fun i => decide (0 < i)) 3).out =
      List.replicate 1 msgBytes :=
  claim_C4_tx_error_fatal (fun i => decide (0 < i)) 1 (by decide) (by decide)
    3 (by decide)

/-- C5: the fault-halt spin states are terminal: once the UART program or
the Nucleo blinky is out of its running mode (take-failure spin or
transmit-failure spin), every later state is literally the same state, so
no further UART writes and no further pin writes happen and the schedule is
never re-entered. -/
theorem claim_C5_fatal_halt_terminal :
    (∀ (pa ca : Bool) (f : Nat → Bool) (n m : Nat), n ≤ m →
        (uPRun pa ca f n).mode ≠ .run →
        uPRun pa ca f m = uPRun pa ca f n) ∧
    (∀ (pa ca : Bool) (n m : Nat), n ≤ m →
        (npRun pa ca n).mode ≠ .run →
        npRun pa ca m = npRun pa ca n) :=
  ⟨fun pa ca f n m hm h => uPRun_frozen pa ca f n h m hm,
   fun pa ca n m hm h => npRun_frozen pa ca n h m hm⟩

theorem claim_C5_fatal_halt_terminal_witness :
    uPRun false true (fun _ => false) 4 = uPRun false true (fun _ => false) 1 ∧
    npRun true false 4 = npRun true false 1 :=
  ⟨claim_C5_fatal_halt_terminal.1 false true (fun _ => false) 1 4
      (by decide) (by decide),
   claim_C5_fatal_halt_terminal.2 true false 1 4 (by decide) (by decide)⟩

/-- C6: for every requested system clock frequency above the hardware's
maximum achievable PLL output, clock configuration yields
`InvalidFrequency`; and whenever it succeeds, the configured frequency
equals the requested one — never a silently-clamped value. -/
theorem claim_C6_invalid_frequency_rejected (maxPllOutHz requestedHz : Nat) :
    (maxPllOutHz < requestedHz →
      configure_clocks maxPllOutHz requestedHz = .error .InvalidFrequency) ∧
    (∀ cfg, configure_clocks maxPllOutHz requestedHz = .ok cfg →
      cfg.sysclk = requestedHz) := by
  constructor
  · intro h
    simp [configure_clocks, h]
  · intro cfg hcfg
    unfold configure_clocks at hcfg
    split at hcfg
    · exact absurd hcfg (by simp)
    · injection hcfg with h
      rw [← h]

theorem claim_C6_invalid_frequency_rejected_witness :
    configure_clocks discoMaxSysclkHz 100000000 = .error .InvalidFrequency ∧
    ClockConfig.sysclk ⟨requestedSysclkHz⟩ = requestedSysclkHz :=
  ⟨(claim_C6_invalid_frequency_rejected discoMaxSysclkHz 100000000).1
      (by decide),
   (claim_C6_invalid_frequency_rejected discoMaxSysclkHz requestedSysclkHz).2
      ⟨requestedSysclkHz⟩ rfl⟩

/-- C7: immediately after configuration a pin's logical mode equals the
requested mode (push-pull output, or alternate-function push-pull), and no
sequence of the runtime operations these programs perform afterwards
(`set_high`, `set_low`, `toggle`) ever changes the mode. -/
theorem claim_C7_pin_mode_fixed :
    into_push_pull_output.mode = .pushPullOutput ∧
    into_af_push_pull.mode = .altFnPushPull ∧
    ∀ (h : PinHandle) (ops : List PinOp), (applyPinOps h ops).mode = h.mode :=
  ⟨rfl, rfl, applyPinOps_mode⟩

/-- C8 counterexample: not every example program initializes peripherals
and runs an LED-toggling or serial-writing loop — the `example-uart`
template initializes nothing and its loop is empty. -/
theorem claim_C8_counterexample :
    ¬ (∀ e : ExampleProgram, initializesPeripherals e = true ∧
        (loopBehavior e = .togglesLeds ∨
         loopBehavior e = .writesFixedString)) := by
  intro h
  exact absurd (h .uartTemplate).1 (by decide)

/-- C8 (amended): every example program other than the empty `example-uart`
template initializes clocks, GPIO, or a UART peripheral via the HAL and
runs an infinite loop that either toggles LEDs or writes a fixed string
over serial. -/
theorem claim_C8_amended_examples (e : ExampleProgram)
    (he : e ≠ .uartTemplate) :
    initializesPeripherals e = true ∧
    (loopBehavior e = .togglesLeds ∨ loopBehavior e = .writesFixedString) := by
  cases e with
  | blinkyNucleo => exact ⟨rfl, Or.inl rfl⟩
  | blinkyDisco => exact ⟨rfl, Or.inl rfl⟩
  | uartDisco => exact ⟨rfl, Or.inr rfl⟩
  | uartTemplate => exact absurd rfl he

theorem claim_C8_amended_examples_witness :
    initializesPeripherals .uartDisco = true ∧
    (loopBehavior .uartDisco = .togglesLeds ∨
     loopBehavior .uartDisco = .writesFixedString) :=
  claim_C8_amended_examples .uartDisco (by decide)

/-- C9: in the STM32F3-Discovery eight-LED blinky, toggle results are
discarded with `.ok()`: however the per-LED toggle failures fall, the loop
never halts (`n` iterations always complete), the 500 ms delay is never
skipped (elapsed delay is `500 * n`), every LED gets its toggle attempt
each iteration, and each LED's level is determined solely by the parity of
its own successful toggles. -/
theorem claim_C9_toggle_result_discarded (f : Nat → DiscoLed → Bool)
    (n : Nat) (l : DiscoLed) :
    (discoRun f n).time = LED_TOGGLE_DELAY_MS * n ∧
    (discoRun f n).iters = n ∧
    (discoRun f n).levels l = levelOfParity (successCount f n l) := by
  induction n with
  | zero => exact ⟨rfl, rfl, rfl⟩
  | succ n ih =>
    obtain ⟨ht, hi, hl⟩ := ih
    refine ⟨?_, ?_, ?_⟩
    · show (discoIter (f n) (discoRun f n)).time = _
      simp [discoIter, ht, Nat.mul_succ]
    · show (discoIter (f n) (discoRun f n)).iters = _
      simp [discoIter, hi]
    · show (discoIter (f n) (discoRun f n)).levels l = _
      rw [successCount_succ]
      by_cases hf : f n l
      · simp [discoIter, toggleOk, ledToggle, hf, hl]
      · simp [discoIter, toggleOk, ledToggle, hf, hl, flipLevel_levelOfParity]

/-- C10: each non-empty example program takes the device singleton
(`pac::Peripherals::take`) and the core singleton
(`cortex_m::Peripherals::take`) exactly once during startup, and if either
take fails, startup ends in the permanent spin state without ever reaching
the main loop; with both available, the loop is reached. -/
theorem claim_C10_two_oneshot_takes (e : ExampleProgram)
    (he : e ≠ .uartTemplate) :
    (startupSteps e).count .takePac = 1 ∧
    (startupSteps e).count .takeCore = 1 ∧
    (∀ pa ca : Bool, (pa = false ∨ ca = false) →
        runStartup pa ca (startupSteps e) = .spunOnTake) ∧
    runStartup true true (startupSteps e) = .reachedLoop := by
  cases e with
  | uartTemplate => exact absurd rfl he
  | blinkyNucleo =>
    refine ⟨by decide, by decide, ?_, by decide⟩
    intro pa ca hpc
    rcases hpc with h | h
    · subst h; cases ca <;> decide
    · subst h; cases pa <;> decide
  | blinkyDisco =>
    refine ⟨by decide, by decide, ?_, by decide⟩
    intro pa ca hpc
    rcases hpc with h | h
    · subst h; cases ca <;> decide
    · subst h; cases pa <;> decide
  | uartDisco =>
    refine ⟨by decide, by decide, ?_, by decide⟩
    intro pa ca hpc
    rcases hpc with h | h
    · subst h; cases ca <;> decide
    · subst h; cases pa <;> decide

theorem claim_C10_two_oneshot_takes_witness :
    (startupSteps .blinkyDisco).count .takePac = 1 ∧
    runStartup false true (startupSteps .blinkyDisco) = .spunOnTake :=
  ⟨(claim_C10_two_oneshot_takes .blinkyDisco (by decide)).1,
   (claim_C10_two_oneshot_takes .blinkyDisco (by decide)).2.2.1 false true
      (Or.inl rfl)⟩

end WtEmbedded
